import Mathlib

/-!
Shallow embedding of the smart-crop-ai sensor dashboard core.

Sensor values are JavaScript numbers used only through order comparisons and
numeric literals, so they are modelled as rationals (`ℚ`); a nullable field
`number | null` becomes `Option ℚ` with `none` for `null`.

The embedded code:
* `getSensorStatus` and the `regions` record, from `src/src/pages/Index.tsx`;
* the nullable-aware `SensorAIService` (`getFallbackRecommendations`,
  `getSuitablePlants`, `parseAIResponse`, `generateRecommendations`), from
  `src/unnamed/part_001`, in namespace `part001`;
* the non-nullable `SensorAIService` variant from
  `src/src/services/sensorAI.ts`, in namespace `sensorAIts`;
* `handleInputChange` from `src/src/components/ManualInputPanel.tsx`, in
  namespace `ManualInputPanel`.
-/

/-- The three-level status, `'good' | 'warning' | 'critical'` in the source. -/
inductive Status where
  | good
  | warning
  | critical
deriving DecidableEq, Repr

/-- The six sensor fields, `keyof SensorData` in `Index.tsx`. -/
inductive SensorField where
  | soilMoisture
  | temperature
  | humidity
  | waterLevel
  | rain
  | light
deriving DecidableEq, Repr

/-- A min/max range object, as used inside `RegionSettings`. -/
structure MinMax where
  min : ℚ
  max : ℚ
deriving DecidableEq, Repr

/-- Embedding of `RegionSettings` from `Index.tsx` (the `name` string is omitted: it is
display-only and never read by `getSensorStatus`). -/
structure RegionSettings where
  optimalTemp : MinMax
  optimalHumidity : MinMax
  optimalSoilMoisture : MinMax
deriving DecidableEq, Repr

/-- The four keys of the `regions` record in `Index.tsx`. -/
inductive RegionKey where
  | temperate
  | tropical
  | arid
  | mediterranean
deriving DecidableEq, Repr

/-- The `regions` record literal from `Index.tsx` lines 50-75. -/
def regions : RegionKey → RegionSettings
  | .temperate => ⟨⟨15, 25⟩, ⟨40, 70⟩, ⟨40, 80⟩⟩
  | .tropical => ⟨⟨22, 32⟩, ⟨60, 85⟩, ⟨50, 85⟩⟩
  | .arid => ⟨⟨20, 35⟩, ⟨20, 40⟩, ⟨20, 50⟩⟩
  | .mediterranean => ⟨⟨18, 28⟩, ⟨45, 65⟩, ⟨35, 70⟩⟩

/-- Embedding of `getSensorStatus` from `Index.tsx` lines 88-120.  In the source the
function closes over the React state `selectedRegion` and reads
`regions[selectedRegion]`; here the resolved `RegionSettings` is an explicit
argument.  The `default:` arm of the `switch` is unreachable because
`SensorField` enumerates all six keys. -/
def getSensorStatus (region : RegionSettings) (sensor : SensorField)
    (value : Option ℚ) : Status :=
  match value with
  | none => .critical
  | some v =>
    match sensor with
    | .soilMoisture =>
      if v < region.optimalSoilMoisture.min - 20 then .critical
      else if v < region.optimalSoilMoisture.min ∨
          v > region.optimalSoilMoisture.max + 10 then .warning
      else .good
    | .temperature =>
      if v < region.optimalTemp.min - 10 ∨ v > region.optimalTemp.max + 10 then .critical
      else if v < region.optimalTemp.min ∨ v > region.optimalTemp.max then .warning
      else .good
    | .humidity =>
      if v < region.optimalHumidity.min - 20 ∨
          v > region.optimalHumidity.max + 20 then .critical
      else if v < region.optimalHumidity.min ∨ v > region.optimalHumidity.max then .warning
      else .good
    | .waterLevel =>
      if v < 20 then .critical
      else if v < 40 then .warning
      else .good
    | .rain =>
      if v > 80 then .warning
      else .good
    | .light =>
      if v < 100 then .critical
      else if v < 300 then .warning
      else .good

/-- The `AIRecommendation` shape shared by both service variants.
`confidence` is a fixed rational literal per rule. -/
structure AIRecommendation where
  type : Status
  title : String
  message : String
  action : String
  confidence : ℚ
deriving DecidableEq, Repr

/-- First-seen-order deduplication, the meaning of `[...new Set(plants)]`:
a JavaScript `Set` keeps the first occurrence of each element in insertion
order.  `seen` accumulates the elements already emitted. -/
def dedupFirstAux (seen : List String) : List String → List String
  | [] => []
  | a :: l =>
    if seen.contains a then dedupFirstAux seen l
    else a :: dedupFirstAux (a :: seen) l

/-- JavaScript spread of a fresh Set, for a list of strings. -/
def dedupFirst (l : List String) : List String :=
  dedupFirstAux [] l

namespace part001

/-- The nullable `SensorData` interface of `src/unnamed/part_001`:
every field is `number | null`. -/
structure SensorData where
  soilMoisture : Option ℚ
  temperature : Option ℚ
  humidity : Option ℚ
  waterLevel : Option ℚ
  rain : Option ℚ
  light : Option ℚ
deriving DecidableEq, Repr

/-- The check `Object.values(data).some(value => value === null)`, the absence check at
the top of `getFallbackRecommendations`. -/
def hasNullValues (d : SensorData) : Bool :=
  d.soilMoisture.isNone || d.temperature.isNone || d.humidity.isNone ||
    d.waterLevel.isNone || d.rain.isNone || d.light.isNone

/-- The single Critical advisory pushed when some field is `null`
(`part_001` lines 195-204). -/
def noDataAdvisory : AIRecommendation :=
  { type := .critical
    title := "No Sensor Data"
    message := "Arduino sensors are not providing data. Check connections and power."
    action := "Verify Arduino connection, check wiring, and ensure proper power supply"
    confidence := 0.95 }

/-- Advisory for `soilMoisture < 20` (`part_001` lines 209-217). -/
def soilAdvisory : AIRecommendation :=
  { type := .critical
    title := "Urgent: Soil Critically Dry"
    message := "Soil moisture is dangerously low. Plants are at risk of severe stress or death."
    action := "Water immediately and check irrigation system"
    confidence := 0.95 }

/-- Advisory for `waterLevel < 20` (`part_001` lines 219-227). -/
def waterAdvisory : AIRecommendation :=
  { type := .critical
    title := "Water Tank Nearly Empty"
    message := "Irrigation reservoir is critically low. Watering system may fail."
    action := "Refill water tank immediately"
    confidence := 0.9 }

/-- Advisory for `temperature < 5 || temperature > 40` (`part_001` lines 229-236). -/
def tempCriticalAdvisory : AIRecommendation :=
  { type := .critical
    title := "Extreme Temperature Alert"
    message := "Temperature is outside safe range for most plants."
    action := "Adjust environmental controls immediately"
    confidence := 0.9 }

/-- Advisory for `temperature < 10 || temperature > 35` (`part_001` lines 237-245). -/
def tempWarningAdvisory : AIRecommendation :=
  { type := .warning
    title := "Temperature Warning"
    message := "Temperature is approaching unsafe levels for many plants."
    action := "Monitor closely and prepare environmental adjustments"
    confidence := 0.8 }

/-- Advisory for `light < 100` (`part_001` lines 247-254). -/
def lightCriticalAdvisory : AIRecommendation :=
  { type := .critical
    title := "Critical Light Deficiency"
    message := "Extremely low light levels will severely impact plant growth."
    action := "Add supplemental lighting immediately"
    confidence := 0.85 }

/-- Advisory for `light < 300` (`part_001` lines 255-263). -/
def lightWarningAdvisory : AIRecommendation :=
  { type := .warning
    title := "Insufficient Light"
    message := "Light levels are below optimal for healthy plant growth."
    action := "Consider adding supplemental lighting or relocating plants"
    confidence := 0.75 }

/-- The trailing advisory when no issue was pushed (`part_001` lines 265-273). -/
def goodAdvisory : AIRecommendation :=
  { type := .good
    title := "Conditions Look Good"
    message := "Environmental parameters are within acceptable ranges for most plants."
    action := "Continue monitoring and maintain current care routine"
    confidence := 0.85 }

/-- The issue accumulation of `getFallbackRecommendations` after the null
check, over the (now known non-null) numeric fields, in push order:
soil moisture, water level, temperature (critical else warning), light
(critical else warning); then the `issues.length === 0` good advisory and
`issues.slice(0, 3)`.  `hum` and `rn` are the humidity and rain readings,
unused by these rules exactly as in the source. -/
def fallbackIssues (sm t hum wl rn li : ℚ) : List AIRecommendation :=
  let issues : List AIRecommendation :=
    (if sm < 20 then [soilAdvisory] else []) ++
    (if wl < 20 then [waterAdvisory] else []) ++
    (if t < 5 ∨ t > 40 then [tempCriticalAdvisory]
     else if t < 10 ∨ t > 35 then [tempWarningAdvisory]
     else []) ++
    (if li < 100 then [lightCriticalAdvisory]
     else if li < 300 then [lightWarningAdvisory]
     else [])
  (if issues.isEmpty then [goodAdvisory] else issues).take 3

/-- Embedding of `getFallbackRecommendations` from `part_001` lines 189-276: if any field
is `null`, return the single no-data advisory; otherwise accumulate the
rule advisories and return the first three. -/
def getFallbackRecommendations (d : SensorData) : List AIRecommendation :=
  match d.soilMoisture, d.temperature, d.humidity, d.waterLevel, d.rain, d.light with
  | some sm, some t, some hum, some wl, some rn, some li =>
    fallbackIssues sm t hum wl rn li
  | _, _, _, _, _, _ => [noDataAdvisory]

/-- The plant accumulation of `getSuitablePlants` (`part_001` lines 287-317),
in push order over the four destructured fields. -/
def plantAccum (temperature humidity light soilMoisture : ℚ) : List String :=
  (if 20 ≤ temperature ∧ temperature ≤ 30 then
    (if light > 500 ∧ soilMoisture > 50 then
      ["Tomatoes", "Peppers", "Basil", "Cucumbers"] else []) ++
    (if humidity > 60 then ["Tropical herbs", "Lettuce", "Spinach"] else [])
   else []) ++
  (if 15 ≤ temperature ∧ temperature < 25 then
    ["Broccoli", "Cabbage", "Peas", "Carrots"] else []) ++
  (if light > 800 then ["Sunflowers", "Marigolds", "Zinnias"]
   else if light > 400 then ["Herbs", "Leafy greens", "Strawberries"]
   else if light > 200 then ["Lettuce", "Arugula", "Microgreens"]
   else []) ++
  (if soilMoisture > 70 then ["Rice", "Watercress", "Mint"]
   else if soilMoisture < 40 then ["Succulents", "Lavender", "Rosemary"]
   else [])

/-- The sentinel returned when a required field is `null` (`part_001` line 283). -/
def plantsSentinel : List String :=
  ["Unable to recommend plants - sensor data required"]

/-- Embedding of `getSuitablePlants` from `part_001` lines 278-321: sentinel when any of
the four destructured fields is `null`, else `[...new Set(plants)].slice(0, 8)`. -/
def getSuitablePlants (d : SensorData) : List String :=
  match d.temperature, d.humidity, d.light, d.soilMoisture with
  | some temperature, some humidity, some light, some soilMoisture =>
    (dedupFirst (plantAccum temperature humidity light soilMoisture)).take 8
  | _, _, _, _ => plantsSentinel

end part001

namespace part001

/-- JavaScript `String.prototype.includes`: substring containment, as a
scan over every start position. -/
def jsIncludes (s pat : String) : Bool :=
  (List.range (s.toList.length + 1)).any fun i =>
    (s.toList.drop i).take pat.toList.length == pat.toList

/-- The four mutable parse variables of `parseAIResponse` with their
default initial values (`part_001` lines 155-158). -/
structure ParseFields where
  priority : String
  title : String
  action : String
  reason : String
deriving DecidableEq, Repr

/-- Initial values: `'good'`, `'System Analysis'`, `'Continue monitoring'`,
`'Conditions are stable'`. -/
def initialParseFields : ParseFields :=
  { priority := "good"
    title := "System Analysis"
    action := "Continue monitoring"
    reason := "Conditions are stable" }

/-- One iteration of the `for (const line of lines)` loop of
`parseAIResponse`.  In the source a matching label is stripped with
`line.replace(label, '')`; JavaScript `replace` with a string pattern
removes only the first occurrence, which under the guarding `startsWith`
is the leading label, so it equals dropping the label's length. -/
def parseLine (st : ParseFields) (line : String) : ParseFields :=
  if line.startsWith "PRIORITY:" then
    { st with priority := ((line.drop "PRIORITY:".length).trim).toLower }
  else if line.startsWith "TITLE:" then
    { st with title := (line.drop "TITLE:".length).trim }
  else if line.startsWith "ACTION:" then
    { st with action := (line.drop "ACTION:".length).trim }
  else if line.startsWith "REASON:" then
    { st with reason := (line.drop "REASON:".length).trim }
  else st

/-- The priority mapping of `parseAIResponse`: substring match on the
lower-cased priority word. -/
def mapPriority (priority : String) : Status :=
  if jsIncludes priority "critical" then .critical
  else if jsIncludes priority "warning" then .warning
  else .good

/-- Embedding of `parseAIResponse` from `part_001` lines 151-187.  The raw response
string is represented by its list of lines (the source's
`response.split('\n')`); the body's `try`/`catch` is modelled by the
oracle `parseFails`, true when the `try` block would throw — the `catch`
arm returns the deterministic fallback. -/
def parseAIResponse (lines : List String) (parseFails : Bool)
    (d : SensorData) : List AIRecommendation :=
  if parseFails then getFallbackRecommendations d
  else
    let st := ((lines.map String.trim).filter (fun l => l != "")).foldl
      parseLine initialParseFields
    [{ type := mapPriority st.priority
       title := st.title
       message := st.reason
       action := st.action
       confidence := 0.85 }]

/-- Outcome of awaiting `this.generator(prompt, …)`: the call either throws
(caught by the surrounding `try`/`catch`) or yields generated text, here
already stripped of the prompt and split into lines as in
`generatedText.replace(prompt, '').trim()` followed by the parse split. -/
inductive GenOutcome where
  | failure
  | success (lines : List String)
deriving DecidableEq, Repr

/-- Embedding of `generateRecommendations` from `part_001` lines 123-149.
`initialized` models `this.isInitialized && this.generator`; a thrown
generation error is `GenOutcome.failure`, handled by the `catch` arm.
The function is total: no failure escapes to the caller. -/
def generateRecommendations (initialized : Bool) (outcome : GenOutcome)
    (parseFails : Bool) (d : SensorData) : List AIRecommendation :=
  if !initialized then getFallbackRecommendations d
  else
    match outcome with
    | .failure => getFallbackRecommendations d
    | .success lines => parseAIResponse lines parseFails d

end part001

namespace sensorAIts

/-- The non-nullable `SensorData` interface of `src/src/services/sensorAI.ts`. -/
structure SensorData where
  soilMoisture : ℚ
  temperature : ℚ
  humidity : ℚ
  waterLevel : ℚ
  rain : ℚ
  light : ℚ
deriving DecidableEq, Repr

/-- Advisory for `soilMoisture < 30` (`sensorAI.ts` lines 184-192). -/
def soilAdvisory : AIRecommendation :=
  { type := .critical
    title := "Urgent: Soil Critically Dry"
    message := "Soil moisture is dangerously low. Plants are at risk of severe stress or death."
    action := "Water immediately and check irrigation system"
    confidence := 0.95 }

/-- Advisory for `waterLevel < 20` (`sensorAI.ts` lines 194-202). -/
def waterAdvisory : AIRecommendation :=
  { type := .critical
    title := "Water Tank Nearly Empty"
    message := "Irrigation reservoir is critically low. Watering system may fail."
    action := "Refill water tank immediately"
    confidence := 0.9 }

/-- Advisory for `temperature > 35` (`sensorAI.ts` lines 204-212). -/
def heatAdvisory : AIRecommendation :=
  { type := .warning
    title := "High Temperature Alert"
    message := "Excessive heat can stress plants and increase water needs."
    action := "Provide shade or increase ventilation"
    confidence := 0.8 }

/-- Advisory for `light < 200` (`sensorAI.ts` lines 214-222). -/
def lightAdvisory : AIRecommendation :=
  { type := .warning
    title := "Insufficient Light"
    message := "Low light levels may slow plant growth and photosynthesis."
    action := "Add supplemental lighting or relocate plants"
    confidence := 0.75 }

/-- The trailing advisory when no issue was pushed (`sensorAI.ts` lines 224-232). -/
def goodAdvisory : AIRecommendation :=
  { type := .good
    title := "Optimal Growing Conditions"
    message := "All environmental parameters are within healthy ranges for plant growth."
    action := "Continue current care routine and monitor regularly"
    confidence := 0.85 }

/-- Embedding of `getFallbackRecommendations` from `sensorAI.ts` lines 180-235:
accumulate in push order, append the good advisory when empty, and
`issues.slice(0, 3)`. -/
def getFallbackRecommendations (d : SensorData) : List AIRecommendation :=
  let issues : List AIRecommendation :=
    (if d.soilMoisture < 30 then [soilAdvisory] else []) ++
    (if d.waterLevel < 20 then [waterAdvisory] else []) ++
    (if d.temperature > 35 then [heatAdvisory] else []) ++
    (if d.light < 200 then [lightAdvisory] else [])
  (if issues.isEmpty then [goodAdvisory] else issues).take 3

/-- Embedding of `getSuitablePlants` from `sensorAI.ts` lines 237-275.  The accumulation
body is character-for-character the same as in `part_001` (only the null
guard is missing, the fields being non-nullable here), so it reuses
`part001.plantAccum`. -/
def getSuitablePlants (d : SensorData) : List String :=
  (dedupFirst (part001.plantAccum d.temperature d.humidity d.light d.soilMoisture)).take 8

end sensorAIts

namespace ManualInputPanel

/-- The non-nullable `SensorData` interface of `ManualInputPanel.tsx`:
the form state `formData` holds a plain number for every field, so the
manual-entry path cannot hold an absent (`null`) field at all. -/
structure SensorData where
  soilMoisture : ℚ
  temperature : ℚ
  humidity : ℚ
  waterLevel : ℚ
  rain : ℚ
  light : ℚ
deriving DecidableEq, Repr

/-- The value stored by `parseFloat(value) || 0`.  `parseFloat`'s result is
abstracted to `Option ℚ`: `none` for `NaN` (an unparseable string) and
`some q` for a parsed number.  `NaN`, `0` and `-0` are the falsy numbers,
so `|| 0` replaces exactly them by the literal `0`. -/
def parseOrZero (p : Option ℚ) : ℚ :=
  match p with
  | none => 0
  | some q => if q = 0 then 0 else q

/-- Embedding of `handleInputChange` from `ManualInputPanel.tsx` lines 26-31: functional
update of `formData` storing `parseFloat(value) || 0` at `field`, with the
input string represented by its `parseFloat` outcome `p`. -/
def handleInputChange (d : SensorData) (field : SensorField) (p : Option ℚ) :
    SensorData :=
  match field with
  | .soilMoisture => { d with soilMoisture := parseOrZero p }
  | .temperature => { d with temperature := parseOrZero p }
  | .humidity => { d with humidity := parseOrZero p }
  | .waterLevel => { d with waterLevel := parseOrZero p }
  | .rain => { d with rain := parseOrZero p }
  | .light => { d with light := parseOrZero p }

/-- Projection of a `formData` field. -/
def fieldValue (d : SensorData) (field : SensorField) : ℚ :=
  match field with
  | .soilMoisture => d.soilMoisture
  | .temperature => d.temperature
  | .humidity => d.humidity
  | .waterLevel => d.waterLevel
  | .rain => d.rain
  | .light => d.light

end ManualInputPanel

section DedupLemmas

/-- Any member of `dedupFirstAux seen l` comes from `l` and was not in `seen`. -/
theorem mem_dedupFirstAux (x : String) :
    ∀ (seen l : List String), x ∈ dedupFirstAux seen l →
      x ∈ l ∧ seen.contains x = false := by
  intro seen l
  induction l generalizing seen with
  | nil => intro h; simp [dedupFirstAux] at h
  | cons a l ih =>
    intro h
    rw [dedupFirstAux] at h
    by_cases hc : seen.contains a
    · rw [if_pos hc] at h
      obtain ⟨h1, h2⟩ := ih seen h
      exact ⟨List.mem_cons_of_mem a h1, h2⟩
    · rw [if_neg hc] at h
      rcases List.mem_cons.1 h with rfl | h
      · exact ⟨List.mem_cons_self x l, by simpa using hc⟩
      · obtain ⟨h1, h2⟩ := ih (a :: seen) h
        refine ⟨List.mem_cons_of_mem a h1, ?_⟩
        simp only [List.contains_cons, Bool.or_eq_false_iff] at h2
        exact h2.2

/-- The function `dedupFirstAux` returns a sublist of its input (first-seen order kept). -/
theorem dedupFirstAux_sublist :
    ∀ (seen l : List String), List.Sublist (dedupFirstAux seen l) l := by
  intro seen l
  induction l generalizing seen with
  | nil => simp [dedupFirstAux]
  | cons a l ih =>
    rw [dedupFirstAux]
    by_cases hc : seen.contains a
    · rw [if_pos hc]
      exact (ih seen).cons a
    · rw [if_neg hc]
      exact (ih (a :: seen)).cons₂ a

/-- The function `dedupFirstAux` never emits a duplicate. -/
theorem dedupFirstAux_nodup :
    ∀ (seen l : List String), (dedupFirstAux seen l).Nodup := by
  intro seen l
  induction l generalizing seen with
  | nil => simp [dedupFirstAux]
  | cons a l ih =>
    rw [dedupFirstAux]
    by_cases hc : seen.contains a
    · rw [if_pos hc]; exact ih seen
    · rw [if_neg hc]
      refine List.nodup_cons.2 ⟨?_, ih (a :: seen)⟩
      intro hmem
      have h2 := (mem_dedupFirstAux a (a :: seen) l hmem).2
      simp at h2

/-- The three properties `getSuitablePlants` needs of
`[...new Set (l)].slice(0, 8)`: no duplicates, at most eight entries, and a
sublist (hence first-seen-order preserving) of the accumulated list. -/
theorem take_dedupFirst_props (l : List String) :
    ((dedupFirst l).take 8).Nodup ∧ ((dedupFirst l).take 8).length ≤ 8 ∧
      List.Sublist ((dedupFirst l).take 8) l := by
  refine ⟨?_, List.length_take_le 8 _, ?_⟩
  · exact (dedupFirstAux_nodup [] l).sublist (List.take_sublist 8 _)
  · exact (List.take_sublist 8 _).trans (dedupFirstAux_sublist [] l)

end DedupLemmas

/-- Claim C2: for every region selection and every field, an absent (`null`)
reading is classified Critical: `getSensorStatus` returns `'critical'` for
`value === null` before any threshold is consulted. -/
theorem getSensorStatus_absent_critical (region : RegionSettings)
    (sensor : SensorField) :
    getSensorStatus region sensor none = Status.critical := rfl

/-- Claim C1, counterexample: under the initially selected temperate region
the code classifies soilMoisture = 45 as Good, where the spec's table
(Warning iff 20–49) demands Warning, and light = 250 as Warning, where the
spec's table (Good iff ≥ 200) demands Good. -/
theorem getSensorStatus_spec_table_counterexample :
    getSensorStatus (regions RegionKey.temperate) SensorField.soilMoisture (some 45) =
        Status.good ∧
      Status.good ≠ Status.warning ∧
      getSensorStatus (regions RegionKey.temperate) SensorField.light (some 250) =
        Status.warning ∧
      Status.warning ≠ Status.good := by
  refine ⟨?_, by decide, ?_, by decide⟩ <;> norm_num [getSensorStatus, regions]

/-- Claim C1, amended: under the default temperate region the code's actual
bands are: soilMoisture Critical iff v < 20, Warning iff 20 ≤ v < 40 or
v > 90, Good iff 40 ≤ v ≤ 90; light Critical iff v < 100, Warning iff
100 ≤ v < 300, Good iff v ≥ 300 (and the soilMoisture bands further depend
on the selected region). -/
theorem getSensorStatus_temperate_bands (v : ℚ) :
    (getSensorStatus (regions RegionKey.temperate) SensorField.soilMoisture (some v) =
        Status.critical ↔ v < 20) ∧
      (getSensorStatus (regions RegionKey.temperate) SensorField.soilMoisture (some v) =
        Status.warning ↔ (20 ≤ v ∧ v < 40) ∨ 90 < v) ∧
      (getSensorStatus (regions RegionKey.temperate) SensorField.soilMoisture (some v) =
        Status.good ↔ 40 ≤ v ∧ v ≤ 90) ∧
      (getSensorStatus (regions RegionKey.temperate) SensorField.light (some v) =
        Status.critical ↔ v < 100) ∧
      (getSensorStatus (regions RegionKey.temperate) SensorField.light (some v) =
        Status.warning ↔ 100 ≤ v ∧ v < 300) ∧
      (getSensorStatus (regions RegionKey.temperate) SensorField.light (some v) =
        Status.good ↔ 300 ≤ v) := by
  simp only [getSensorStatus, regions]
  norm_num
  refine ⟨?_, ?_, ?_, ?_, ?_, ?_⟩ <;>
    split_ifs with h1 h2 <;> simp_all <;>
    first
      | linarith
      | (intro h; linarith)
      | (intro h; rcases h2 with h2 | h2 <;> linarith)

/-- Claim C4, counterexample: `getSensorStatus` is not a pure function of
(field, value) alone — the same soilMoisture reading of 30 classifies as
Warning under the temperate region but Good under the arid region. -/
theorem getSensorStatus_region_dependent :
    getSensorStatus (regions RegionKey.temperate) SensorField.soilMoisture (some 30) ≠
      getSensorStatus (regions RegionKey.arid) SensorField.soilMoisture (some 30) := by
  norm_num [getSensorStatus, regions]
  decide

/-- Claim C4, amended: `getSensorStatus` is a pure function of (field
identity, value, selected region); for the region-independent fields
waterLevel, rain and light any two region selections yield the same
Status. -/
theorem getSensorStatus_region_independent_fields (r₁ r₂ : RegionSettings)
    (sensor : SensorField) (value : Option ℚ)
    (h : sensor = SensorField.waterLevel ∨ sensor = SensorField.rain ∨
      sensor = SensorField.light) :
    getSensorStatus r₁ sensor value = getSensorStatus r₂ sensor value := by
  rcases h with h | h | h <;> subst h <;> cases value <;> rfl

/-- Witness for the amended C4 theorem at waterLevel = 30 under the
temperate and arid regions. -/
theorem getSensorStatus_region_independent_fields_witness :
    getSensorStatus (regions RegionKey.temperate) SensorField.waterLevel (some 30) =
      getSensorStatus (regions RegionKey.arid) SensorField.waterLevel (some 30) :=
  getSensorStatus_region_independent_fields (regions RegionKey.temperate)
    (regions RegionKey.arid) SensorField.waterLevel (some 30) (Or.inl rfl)

/-- Claim C3: whenever at least one of the six fields is absent, the
rule-based `getFallbackRecommendations` returns exactly the one-element list
holding the Critical no-data advisory, whatever the other fields hold. -/
theorem getFallbackRecommendations_absent_single_critical
    (d : part001.SensorData)
    (h : d.soilMoisture = none ∨ d.temperature = none ∨ d.humidity = none ∨
      d.waterLevel = none ∨ d.rain = none ∨ d.light = none) :
    part001.getFallbackRecommendations d = [part001.noDataAdvisory] ∧
      part001.noDataAdvisory.type = Status.critical := by
  refine ⟨?_, rfl⟩
  obtain ⟨f1, f2, f3, f4, f5, f6⟩ := d
  cases f1 <;> cases f2 <;> cases f3 <;> cases f4 <;> cases f5 <;> cases f6 <;>
    simp_all [part001.getFallbackRecommendations]

/-- Witness for C3 at the all-absent snapshot. -/
theorem getFallbackRecommendations_absent_single_critical_witness :
    part001.getFallbackRecommendations ⟨none, none, none, none, none, none⟩ =
        [part001.noDataAdvisory] ∧
      part001.noDataAdvisory.type = Status.critical :=
  getFallbackRecommendations_absent_single_critical
    ⟨none, none, none, none, none, none⟩ (Or.inl rfl)

/-- Claim C5: both rule-based recommenders (`part_001` and `sensorAI.ts`)
return at most three advisories on every snapshot, thanks to
`issues.slice(0, 3)`. -/
theorem getFallbackRecommendations_length_le_three :
    (∀ d : part001.SensorData,
      (part001.getFallbackRecommendations d).length ≤ 3) ∧
    (∀ d : sensorAIts.SensorData,
      (sensorAIts.getFallbackRecommendations d).length ≤ 3) := by
  constructor
  · intro d
    obtain ⟨f1, f2, f3, f4, f5, f6⟩ := d
    cases f1 <;> cases f2 <;> cases f3 <;> cases f4 <;> cases f5 <;> cases f6 <;>
      simp only [part001.getFallbackRecommendations, part001.fallbackIssues] <;>
      simp
  · intro d
    simp only [sensorAIts.getFallbackRecommendations]
    exact List.length_take_le 3 _

/-- Claim C6: on any snapshot with no absent field, both `getSuitablePlants`
variants return a duplicate-free list of at most eight entries that is a
sublist of the raw accumulated plant list — so first-seen order is
preserved among the kept entries. -/
theorem getSuitablePlants_nodup_le_eight_ordered :
    (∀ sm t hum wl rn li : ℚ,
      (part001.getSuitablePlants ⟨some sm, some t, some hum, some wl, some rn, some li⟩).Nodup ∧
      (part001.getSuitablePlants ⟨some sm, some t, some hum, some wl, some rn, some li⟩).length ≤ 8 ∧
      List.Sublist
        (part001.getSuitablePlants ⟨some sm, some t, some hum, some wl, some rn, some li⟩)
        (part001.plantAccum t hum li sm)) ∧
    (∀ d : sensorAIts.SensorData,
      (sensorAIts.getSuitablePlants d).Nodup ∧
      (sensorAIts.getSuitablePlants d).length ≤ 8 ∧
      List.Sublist (sensorAIts.getSuitablePlants d)
        (part001.plantAccum d.temperature d.humidity d.light d.soilMoisture)) := by
  constructor
  · intro sm t hum wl rn li
    simpa only [part001.getSuitablePlants] using
      take_dedupFirst_props (part001.plantAccum t hum li sm)
  · intro d
    simpa only [sensorAIts.getSuitablePlants] using
      take_dedupFirst_props (part001.plantAccum d.temperature d.humidity d.light d.soilMoisture)

/-- Claim C7: on a fully-present snapshot on which none of the rule
conditions of `getFallbackRecommendations` holds, the result is exactly the
one Good conditions-optimal advisory. -/
theorem getFallbackRecommendations_no_rule_fires_good (sm t hum wl rn li : ℚ)
    (hsm : ¬ sm < 20) (hwl : ¬ wl < 20)
    (htc : ¬ (t < 5 ∨ t > 40)) (htw : ¬ (t < 10 ∨ t > 35))
    (hlc : ¬ li < 100) (hlw : ¬ li < 300) :
    part001.getFallbackRecommendations
        ⟨some sm, some t, some hum, some wl, some rn, some li⟩ =
      [part001.goodAdvisory] ∧ part001.goodAdvisory.type = Status.good := by
  refine ⟨?_, rfl⟩
  simp [part001.getFallbackRecommendations, part001.fallbackIssues,
    hsm, hwl, htc, htw, hlc, hlw]

/-- Witness for C7 at the spec's snapshot soilMoisture = 65.4,
temperature = 24.8, humidity = 58.2, waterLevel = 78.9, rain = 12.3,
light = 450. -/
theorem getFallbackRecommendations_no_rule_fires_good_witness :
    part001.getFallbackRecommendations
        ⟨some 65.4, some 24.8, some 58.2, some 78.9, some 12.3, some 450⟩ =
      [part001.goodAdvisory] ∧ part001.goodAdvisory.type = Status.good :=
  getFallbackRecommendations_no_rule_fires_good 65.4 24.8 58.2 78.9 12.3 450
    (by norm_num) (by norm_num) (by norm_num) (by norm_num) (by norm_num) (by norm_num)

/-- Claim C8: whenever the external-advisor path fails — the model is not
initialized, the generation call throws, or the response parse throws — 
`generateRecommendations` returns exactly the deterministic
`getFallbackRecommendations` output for the same snapshot; being a total
function, it propagates no failure to the caller. -/
theorem generateRecommendations_failure_falls_back (initialized : Bool)
    (outcome : part001.GenOutcome) (parseFails : Bool) (d : part001.SensorData)
    (h : initialized = false ∨ outcome = part001.GenOutcome.failure ∨
      parseFails = true) :
    part001.generateRecommendations initialized outcome parseFails d =
      part001.getFallbackRecommendations d := by
  rcases h with h | h | h
  · subst h; rfl
  · subst h; cases initialized <;> rfl
  · subst h
    cases initialized
    · rfl
    · cases outcome
      · rfl
      · simp [part001.generateRecommendations, part001.parseAIResponse]

/-- Witness for C8 with an uninitialized model. -/
theorem generateRecommendations_failure_falls_back_witness :
    part001.generateRecommendations false part001.GenOutcome.failure false
        ⟨some 1, some 2, some 3, some 4, some 5, some 6⟩ =
      part001.getFallbackRecommendations ⟨some 1, some 2, some 3, some 4, some 5, some 6⟩ :=
  generateRecommendations_failure_falls_back false part001.GenOutcome.failure false
    ⟨some 1, some 2, some 3, some 4, some 5, some 6⟩ (Or.inl rfl)

/-- Claim C9: whenever any of the four destructured fields (temperature,
humidity, light, soilMoisture) is absent, `getSuitablePlants` returns the
single sentinel message instead of a plant list. -/
theorem getSuitablePlants_missing_field_sentinel (d : part001.SensorData)
    (h : d.temperature = none ∨ d.humidity = none ∨ d.light = none ∨
      d.soilMoisture = none) :
    part001.getSuitablePlants d = part001.plantsSentinel := by
  obtain ⟨f1, f2, f3, f4, f5, f6⟩ := d
  cases f1 <;> cases f2 <;> cases f3 <;> cases f6 <;>
    simp_all [part001.getSuitablePlants]

/-- Witness for C9 with only the temperature absent. -/
theorem getSuitablePlants_missing_field_sentinel_witness :
    part001.getSuitablePlants ⟨some 1, none, some 2, some 3, some 4, some 5⟩ =
      part001.plantsSentinel :=
  getSuitablePlants_missing_field_sentinel ⟨some 1, none, some 2, some 3, some 4, some 5⟩
    (Or.inl rfl)

/-- Claim C10: for every field and every form state, the manual-input
handler stores the parsed number when `parseFloat` yields a nonzero value
and the literal 0 when the input is unparseable (`NaN`) or parses to 0;
the stored value is a plain rational, so the manual-entry path never
produces an absent field. -/
theorem handleInputChange_parse_or_zero (d : ManualInputPanel.SensorData)
    (field : SensorField) (p : Option ℚ) :
    (∀ q : ℚ, p = some q → q ≠ 0 →
      ManualInputPanel.fieldValue (ManualInputPanel.handleInputChange d field p) field = q) ∧
    ((p = none ∨ p = some 0) →
      ManualInputPanel.fieldValue (ManualInputPanel.handleInputChange d field p) field = 0) := by
  constructor
  · rintro q rfl hq
    cases field <;>
      simp [ManualInputPanel.handleInputChange, ManualInputPanel.fieldValue,
        ManualInputPanel.parseOrZero, hq]
  · rintro (rfl | rfl) <;> cases field <;>
      simp [ManualInputPanel.handleInputChange, ManualInputPanel.fieldValue,
        ManualInputPanel.parseOrZero]

/-- Witness for C10: a parse result of 5 is stored verbatim. -/
theorem handleInputChange_parse_or_zero_witness :
    ManualInputPanel.fieldValue
        (ManualInputPanel.handleInputChange ⟨0, 0, 0, 0, 0, 0⟩
          SensorField.soilMoisture (some 5))
        SensorField.soilMoisture = 5 :=
  (handleInputChange_parse_or_zero ⟨0, 0, 0, 0, 0, 0⟩ SensorField.soilMoisture
    (some 5)).1 5 rfl (by norm_num)
